import Mathlib

/-!
Verification of the reaction-notification engine of a Telegram bot
(`main.go`).  The engine correlates reaction-change events with previously
sent spoiler messages, edits or sends DM notifications, and runs a
fence-token-guarded deferred cleanup after a full reaction removal.

The embedding is shallow: the two persistent maps of the key-value store
(message metadata keyed by `chatID:messageID`, notification metadata keyed
by `notification:userID:chatID:messageID` — disjoint key spaces, hence two
maps), the reaction event, and the outcomes of the messaging transport
(edit / send / delete results, the clock) are explicit data; the handler
`handleMessageReaction` and the cleanup goroutine body `cleanupExpiry`
are pure functions returning the list of transport calls issued together
with the updated notification store.
-/

/-- `MessageMetadata` stores info about sent messages for reaction handling. -/
structure MessageMetadata where
  UserID : Int
  ChatID : Int
  MessageID : Int
  deriving DecidableEq, Repr

/-- `NotificationMetadata` stores the last notification message ID and removal state. -/
structure NotificationMetadata where
  NotificationMsgID : Int
  RemovedAt : Int
  RemovedEmojis : List String
  deriving DecidableEq, Repr

namespace models

/-- A Telegram user as far as the handler reads it (`Username`, `FirstName`). -/
structure User where
  Username : String
  FirstName : String
  deriving DecidableEq, Repr

/-- A Telegram chat as far as the handler reads it.  The Go field `Type` is
renamed `ChatType` because `Type` is a Lean keyword. -/
structure Chat where
  ID : Int
  ChatType : String
  Title : String
  deriving DecidableEq, Repr

/-- A reaction kind: a standard emoji (carrying its glyph) or a custom
emoji (carrying its identifier), mirroring the two reaction kinds the
handler distinguishes (`ReactionTypeEmoji` / `ReactionTypeCustomEmoji`). -/
inductive ReactionType where
  | emoji (e : String)
  | customEmoji (id : String)
  deriving DecidableEq, Repr

/-- The reaction-change event (`models.MessageReactionUpdated`) with the
fields the handler reads. -/
structure MessageReactionUpdated where
  Chat : models.Chat
  MessageID : Int
  User : Option models.User
  ActorChat : Option models.Chat
  OldReaction : List models.ReactionType
  NewReaction : List models.ReactionType
  deriving DecidableEq, Repr

end models

/-- The message-metadata half of the store: `getMessageMetadata` keyed by
(chatID, messageID). -/
def MsgStore : Type := Int × Int → Option MessageMetadata

/-- The notification-metadata half of the store: `getNotificationMetadata`
keyed by (userID, chatID, messageID). -/
def NotifStore : Type := Int × Int × Int → Option NotificationMetadata

/-- `storeNotificationMetadata`: full overwrite of the value at one key. -/
def putNotif (s : NotifStore) (k : Int × Int × Int) (v : NotificationMetadata) :
    NotifStore :=
  fun k' => if k' = k then some v else s k'

/-- Outcomes of the external collaborators during one handler run:
whether `EditMessageText` succeeds for a given target message id, what
`SendMessage` returns (`some id` on success, `none` on error), whether
`DeleteMessage` succeeds, and the current Unix time `time.Now().Unix()`. -/
structure Env where
  editOk : Int → Bool
  sendResult : Option Int
  deleteOk : Bool
  now : Int

/-- The side-effecting transport calls the engine issues. -/
inductive Effect where
  | editMessage (chatID msgID : Int) (text : String)
  | sendMessage (chatID : Int) (text : String)
  | deleteMessage (chatID msgID : Int)
  | armCleanup (userID chatID msgID fence : Int)
  deriving DecidableEq, Repr

/-- The label one reaction contributes to the notification text: a standard
emoji renders as its glyph, a custom emoji as the fixed `[custom]` token
(loop bodies at lines 417-423 and 477-482 of `main.go`). -/
def reactionLabel : models.ReactionType → String
  | .emoji e => e
  | .customEmoji _ => "[custom]"

/-- The emoji-label extraction loops of the handler. -/
def extractEmojis (rs : List models.ReactionType) : List String :=
  rs.map reactionLabel

/-- Reactor-name extraction (lines 382-394 of `main.go`). -/
def reactorNameOf (reaction : models.MessageReactionUpdated) : String :=
  match reaction.User with
  | some u => if u.Username ≠ "" then "@" ++ u.Username else u.FirstName
  | none =>
    match reaction.ActorChat with
    | some ac => ac.Title
    | none => "Anonymous"

/-- Chat-title fallback (lines 397-400 of `main.go`). -/
def chatTitleOf (c : models.Chat) : String :=
  if c.Title = "" then "a chat" else c.Title

/-- The chat-id part of the message link: decimal rendering with a leading
`-100` stripped (lines 403-406 of `main.go`). -/
def chatIDLinkPart (chatID : Int) : String :=
  let s := toString chatID
  if s.length > 4 ∧ s.take 4 = "-100" then s.drop 4 else s

/-- The `https://t.me/c/...` message link (line 407 of `main.go`). -/
def messageLinkOf (chatID messageID : Int) : String :=
  "https://t.me/c/" ++ chatIDLinkPart chatID ++ "/" ++ toString messageID

/-- The "reacted ... and removed" notification text (lines 427-435). -/
def notificationTextRemoved (reactorName emojiStr chatTitle messageLink : String) :
    String :=
  "🎭 <b>" ++ reactorName ++ "</b> reacted: " ++ emojiStr ++ " and removed\n\n" ++
    "<b>In:</b> " ++ chatTitle ++ "\n\n" ++
    "<a href=\"" ++ messageLink ++ "\">Jump to message</a>"

/-- The active "reacted" notification text (lines 487-495). -/
def notificationTextActive (reactorName emojiStr chatTitle messageLink : String) :
    String :=
  "🎭 <b>" ++ reactorName ++ "</b> reacted: " ++ emojiStr ++ "\n\n" ++
    "<b>In:</b> " ++ chatTitle ++ "\n\n" ++
    "<a href=\"" ++ messageLink ++ "\">Jump to message</a>"

/-- Body of the goroutine armed after a full removal (lines 453-470 of
`main.go`): after the grace sleep, re-read the state and delete + reset iff
the re-read `RemovedAt` equals the captured fence and is non-zero.  A
failing delete is only logged (`deleteOk` does not change the behaviour). -/
def cleanupExpiry (notifStore : NotifStore) (userID chatID messageID : Int)
    (fence : Int) (deleteOk : Bool) : List Effect × NotifStore :=
  match notifStore (userID, chatID, messageID) with
  | some currentMeta =>
    if currentMeta.RemovedAt = fence ∧ currentMeta.RemovedAt ≠ 0 then
      -- still in removed state: delete the notification (result only
      -- logged), then clear the metadata unconditionally
      let _ := deleteOk
      ([Effect.deleteMessage userID currentMeta.NotificationMsgID],
        putNotif notifStore (userID, chatID, messageID) ⟨0, 0, []⟩)
    else ([], notifStore)
  | none => ([], notifStore)

/-- `handleMessageReaction` (lines 369-538 of `main.go`) as a pure function
from the two store halves, the collaborator outcomes and the event to the
list of transport calls issued and the resulting notification store. -/
def handleMessageReaction (msgStore : MsgStore) (notifStore : NotifStore)
    (env : Env) (reaction : models.MessageReactionUpdated) :
    List Effect × NotifStore :=
  -- only handle reactions in group chats
  if reaction.Chat.ChatType = "private" then ([], notifStore)
  else
    -- look up original message metadata
    match msgStore (reaction.Chat.ID, reaction.MessageID) with
    | none => ([], notifStore)
    | some metadata =>
      let reactorName := reactorNameOf reaction
      let chatTitle := chatTitleOf reaction.Chat
      let messageLink := messageLinkOf reaction.Chat.ID reaction.MessageID
      let key : Int × Int × Int :=
        (metadata.UserID, reaction.Chat.ID, reaction.MessageID)
      -- look up previous notification metadata
      let notificationMeta := notifStore key
      if reaction.NewReaction = [] then
        -- user removed all reactions
        match notificationMeta with
        | some nm =>
          if nm.NotificationMsgID ≠ 0 then
            let oldEmojis := extractEmojis reaction.OldReaction
            let notificationText := notificationTextRemoved reactorName
              (String.intercalate " " oldEmojis) chatTitle messageLink
            ([Effect.editMessage metadata.UserID nm.NotificationMsgID
                notificationText,
              Effect.armCleanup metadata.UserID reaction.Chat.ID
                reaction.MessageID env.now],
              putNotif notifStore key
                ⟨nm.NotificationMsgID, env.now, oldEmojis⟩)
          else ([], notifStore)
        | none => ([], notifStore)
      else
        let emojis := extractEmojis reaction.NewReaction
        let notificationText := notificationTextActive reactorName
          (String.intercalate " " emojis) chatTitle messageLink
        -- try to edit previous notification if it exists;
        -- second component is Go's newMessageID after the edit attempt
        let editResult : List Effect × Int :=
          match notificationMeta with
          | some nm =>
            if nm.NotificationMsgID ≠ 0 then
              if env.editOk nm.NotificationMsgID then
                ([Effect.editMessage metadata.UserID nm.NotificationMsgID
                    notificationText], nm.NotificationMsgID)
              else
                ([Effect.editMessage metadata.UserID nm.NotificationMsgID
                    notificationText], 0)
            else ([], 0)
          | none => ([], 0)
        -- if edit failed or no previous notification, send new message
        if editResult.2 = 0 then
          match env.sendResult with
          | none =>
            (editResult.1 ++ [Effect.sendMessage metadata.UserID
              notificationText], notifStore)
          | some id =>
            (editResult.1 ++ [Effect.sendMessage metadata.UserID
              notificationText],
              putNotif notifStore key ⟨id, 0, []⟩)
        else
          (editResult.1, putNotif notifStore key ⟨editResult.2, 0, []⟩)

/-! ## Helper lemmas and sample data -/

theorem putNotif_get_self (s : NotifStore) (k : Int × Int × Int)
    (v : NotificationMetadata) : putNotif s k v k = some v := by
  simp [putNotif]

theorem putNotif_put_same (s : NotifStore) (k : Int × Int × Int)
    (v w : NotificationMetadata) :
    putNotif (putNotif s k v) k w = putNotif s k w := by
  funext k'
  by_cases h : k' = k <;> simp [putNotif, h]

/-- A sample supergroup chat used to instantiate proved theorems. -/
def sampleChat : models.Chat := ⟨-1001234, "supergroup", "Chess Club"⟩

/-- A sample reacting user. -/
def sampleUser : models.User := ⟨"alice", "Alice"⟩

/-- A sample reaction event: `alice` now has a thumbs-up and a custom
emoji on tracked message 7 of the sample chat. -/
def sampleEvent : models.MessageReactionUpdated :=
  ⟨sampleChat, 7, some sampleUser, none,
    [models.ReactionType.emoji "👍"],
    [models.ReactionType.emoji "👍", models.ReactionType.customEmoji "555"]⟩

/-- Full-removal variant of the sample event. -/
def sampleRemovalEvent : models.MessageReactionUpdated :=
  ⟨sampleChat, 7, some sampleUser, none,
    [models.ReactionType.emoji "👍"], []⟩

/-- Message registry holding the sample tracked message, owned by user 42. -/
def sampleMsgStore : MsgStore :=
  fun k => if k = (-1001234, 7) then some ⟨42, -1001234, 7⟩ else none

/-- Empty notification store. -/
def emptyNotifStore : NotifStore := fun _ => none

/-- Notification store with a live notification (message 99) for the
sample key. -/
def sampleNotifStore : NotifStore :=
  fun k => if k = (42, -1001234, 7) then some ⟨99, 0, []⟩ else none

/-- Notification store in removed state (fence 1700000000) for the
sample key. -/
def removedNotifStore : NotifStore :=
  fun k =>
    if k = (42, -1001234, 7) then some ⟨99, 1700000000, ["👍"]⟩ else none

/-- Sample collaborator outcomes: edits succeed, sends return id 100. -/
def sampleEnv : Env := ⟨fun _ => true, some 100, true, 1700000000⟩

/-! ## Claims -/

/-- C1: at expiry of a cleanup timer armed with fence token `fence`, the
engine re-reads the state for the key and deletes the notification and
resets the state iff the re-read state exists, its `RemovedAt` equals
`fence`, and `fence` is non-zero; on any mismatch (or absent state)
it issues no call and leaves the store unchanged. -/
theorem cleanup_fence_check (s : NotifStore) (u c m fence : Int) (dOk : Bool) :
    (∀ cm, s (u, c, m) = some cm → cm.RemovedAt = fence → fence ≠ 0 →
      cleanupExpiry s u c m fence dOk =
        ([Effect.deleteMessage u cm.NotificationMsgID],
          putNotif s (u, c, m) ⟨0, 0, []⟩)) ∧
    (s (u, c, m) = none → cleanupExpiry s u c m fence dOk = ([], s)) ∧
    (∀ cm, s (u, c, m) = some cm → cm.RemovedAt ≠ fence ∨ fence = 0 →
      cleanupExpiry s u c m fence dOk = ([], s)) := by
  refine ⟨?_, ?_, ?_⟩
  · intro cm hcm hfence h0
    simp [cleanupExpiry, hcm, hfence, h0]
  · intro hnone
    simp [cleanupExpiry, hnone]
  · intro cm hcm hmis
    rcases hmis with hne | h0
    · simp [cleanupExpiry, hcm, hne]
    · subst h0
      simp [cleanupExpiry, hcm]

/-- Witness for C1 at a concrete store: the fence matches, so the
notification message 99 is deleted and the state is cleared. -/
theorem cleanup_fence_check_witness :
    cleanupExpiry removedNotifStore 42 (-1001234) 7 1700000000 true =
      ([Effect.deleteMessage 42 99],
        putNotif removedNotifStore (42, -1001234, 7) ⟨0, 0, []⟩) :=
  (cleanup_fence_check removedNotifStore 42 (-1001234) 7 1700000000 true).1
    ⟨99, 1700000000, ["👍"]⟩ (by decide) (by decide) (by decide)

/-- C10: when the fence matches (and is non-zero) at expiry, the state for
the key is reset to the empty record whatever the outcome of the delete
call (`dOk` is quantified over both values; the code only logs a delete
error). -/
theorem cleanup_reset_regardless_of_delete (s : NotifStore)
    (u c m fence : Int) (cm : NotificationMetadata)
    (h : s (u, c, m) = some cm) (hfence : cm.RemovedAt = fence)
    (h0 : fence ≠ 0) :
    ∀ dOk : Bool,
      (cleanupExpiry s u c m fence dOk).2 (u, c, m) = some ⟨0, 0, []⟩ := by
  intro dOk
  simp [cleanupExpiry, h, hfence, h0, putNotif]

/-- Witness for C10 at a concrete store, for both delete outcomes. -/
theorem cleanup_reset_regardless_of_delete_witness :
    (cleanupExpiry removedNotifStore 42 (-1001234) 7 1700000000 true).2
        (42, -1001234, 7) = some ⟨0, 0, []⟩ ∧
    (cleanupExpiry removedNotifStore 42 (-1001234) 7 1700000000 false).2
        (42, -1001234, 7) = some ⟨0, 0, []⟩ :=
  ⟨cleanup_reset_regardless_of_delete removedNotifStore 42 (-1001234) 7
      1700000000 ⟨99, 1700000000, ["👍"]⟩ (by decide) (by decide) (by decide)
      true,
    cleanup_reset_regardless_of_delete removedNotifStore 42 (-1001234) 7
      1700000000 ⟨99, 1700000000, ["👍"]⟩ (by decide) (by decide) (by decide)
      false⟩

/-- C5: events in a private chat, events whose message has no registry
entry, and full-removal events with no live notification are silently
ignored: no transport call is issued and the notification store is
returned unchanged. -/
theorem untracked_input_no_side_effects (ms : MsgStore) (ns : NotifStore)
    (env : Env) (r : models.MessageReactionUpdated)
    (h : r.Chat.ChatType = "private"
      ∨ ms (r.Chat.ID, r.MessageID) = none
      ∨ (r.NewReaction = [] ∧
          ∀ md, ms (r.Chat.ID, r.MessageID) = some md →
            ns (md.UserID, r.Chat.ID, r.MessageID) = none ∨
            ∃ nm, ns (md.UserID, r.Chat.ID, r.MessageID) = some nm ∧
              nm.NotificationMsgID = 0)) :
    handleMessageReaction ms ns env r = ([], ns) := by
  rcases h with hpriv | hms | ⟨hempty, hdead⟩
  · simp [handleMessageReaction, hpriv]
  · by_cases hpriv : r.Chat.ChatType = "private" <;>
      simp [handleMessageReaction, hpriv, hms]
  · by_cases hpriv : r.Chat.ChatType = "private"
    · simp [handleMessageReaction, hpriv]
    · cases hms : ms (r.Chat.ID, r.MessageID) with
      | none => simp [handleMessageReaction, hpriv, hms]
      | some md =>
        rcases hdead md hms with hnone | ⟨nm, hnm, hzero⟩
        · simp [handleMessageReaction, hpriv, hms, hempty, hnone]
        · simp [handleMessageReaction, hpriv, hms, hempty, hnm, hzero]

/-- Witness for C5: a reaction event on an untracked message of the
sample chat produces no call and leaves the store untouched. -/
theorem untracked_input_no_side_effects_witness :
    handleMessageReaction sampleMsgStore emptyNotifStore sampleEnv
      ⟨sampleChat, 8, some sampleUser, none, [],
        [models.ReactionType.emoji "👍"]⟩ = ([], emptyNotifStore) :=
  untracked_input_no_side_effects sampleMsgStore emptyNotifStore sampleEnv
    ⟨sampleChat, 8, some sampleUser, none, [],
      [models.ReactionType.emoji "👍"]⟩ (Or.inr (Or.inl (by decide)))

/-- C6: the emoji labels rendered from a reaction list are in bijection
with the list, index by index: a standard emoji contributes its glyph, a
custom emoji the fixed `[custom]` placeholder, in the order reported and
with no deduplication or sorting (the handler joins `extractEmojis` with
a single space via `String.intercalate " "`). -/
theorem emoji_rendering_order (rs : List models.ReactionType) :
    (extractEmojis rs).length = rs.length ∧
    (∀ i : Nat, (extractEmojis rs)[i]? = (rs[i]?).map reactionLabel) ∧
    (∀ e, reactionLabel (models.ReactionType.emoji e) = e) ∧
    (∀ cid,
      reactionLabel (models.ReactionType.customEmoji cid) = "[custom]") := by
  refine ⟨by simp [extractEmojis], ?_, fun e => rfl, fun cid => rfl⟩
  intro i
  simp [extractEmojis, List.getElem?_map]

/-- Witness for C6 on a concrete duplicated, unsorted reaction list. -/
theorem emoji_rendering_order_witness :
    (extractEmojis [models.ReactionType.emoji "🎉",
        models.ReactionType.customEmoji "555",
        models.ReactionType.emoji "🎉"]).length = 3 ∧
    (extractEmojis [models.ReactionType.emoji "🎉",
        models.ReactionType.customEmoji "555",
        models.ReactionType.emoji "🎉"])[1]? = some "[custom]" :=
  ⟨(emoji_rendering_order _).1,
    by
      rw [(emoji_rendering_order [models.ReactionType.emoji "🎉",
        models.ReactionType.customEmoji "555",
        models.ReactionType.emoji "🎉"]).2.1 1]
      rfl⟩

/-- C8: the reactor name used in the notification text follows the
precedence handle > first name > actor-chat title > `"Anonymous"`
(a present handle is rendered with a leading `@`). -/
theorem reactor_name_precedence (r : models.MessageReactionUpdated) :
    (∀ u, r.User = some u → u.Username ≠ "" →
      reactorNameOf r = "@" ++ u.Username) ∧
    (∀ u, r.User = some u → u.Username = "" →
      reactorNameOf r = u.FirstName) ∧
    (∀ ac, r.User = none → r.ActorChat = some ac →
      reactorNameOf r = ac.Title) ∧
    (r.User = none → r.ActorChat = none → reactorNameOf r = "Anonymous") := by
  refine ⟨?_, ?_, ?_, ?_⟩
  · intro u hu hne
    simp [reactorNameOf, hu, hne]
  · intro u hu heq
    simp [reactorNameOf, hu, heq]
  · intro ac hu hac
    simp [reactorNameOf, hu, hac]
  · intro hu hac
    simp [reactorNameOf, hu, hac]

/-- Witness for C8: the sample user has handle `alice`, so the name is
`@alice`. -/
theorem reactor_name_precedence_witness :
    reactorNameOf sampleEvent = "@alice" :=
  (reactor_name_precedence sampleEvent).1 sampleUser (by decide) (by decide)

/-- C2: on a full-removal event with a live notification, the handler
edits that notification in place to the "reacted ... and removed" text,
stores the state with `RemovedAt` set to the (non-zero) current time and
`RemovedEmojis` set to the labels of the old reaction set, and arms one
cleanup timer whose fence token is that same `RemovedAt` value. -/
theorem removal_edits_and_arms_timer (ms : MsgStore) (ns : NotifStore)
    (env : Env) (r : models.MessageReactionUpdated) (md : MessageMetadata)
    (nm : NotificationMetadata)
    (hpriv : r.Chat.ChatType ≠ "private")
    (hms : ms (r.Chat.ID, r.MessageID) = some md)
    (hempty : r.NewReaction = [])
    (hns : ns (md.UserID, r.Chat.ID, r.MessageID) = some nm)
    (hlive : nm.NotificationMsgID ≠ 0)
    (hnow : env.now ≠ 0) :
    handleMessageReaction ms ns env r =
      ([Effect.editMessage md.UserID nm.NotificationMsgID
          (notificationTextRemoved (reactorNameOf r)
            (String.intercalate " " (extractEmojis r.OldReaction))
            (chatTitleOf r.Chat) (messageLinkOf r.Chat.ID r.MessageID)),
        Effect.armCleanup md.UserID r.Chat.ID r.MessageID env.now],
        putNotif ns (md.UserID, r.Chat.ID, r.MessageID)
          ⟨nm.NotificationMsgID, env.now, extractEmojis r.OldReaction⟩) ∧
    env.now ≠ 0 := by
  refine ⟨?_, hnow⟩
  simp [handleMessageReaction, hpriv, hms, hempty, hns, hlive]

/-- Witness for C2: removing the thumbs-up while notification 99 is live
edits message 99 and arms a timer with fence 1700000000. -/
theorem removal_edits_and_arms_timer_witness :
    handleMessageReaction sampleMsgStore sampleNotifStore sampleEnv
        sampleRemovalEvent =
      ([Effect.editMessage 42 99
          (notificationTextRemoved (reactorNameOf sampleRemovalEvent)
            (String.intercalate " "
              (extractEmojis sampleRemovalEvent.OldReaction))
            (chatTitleOf sampleRemovalEvent.Chat)
            (messageLinkOf sampleRemovalEvent.Chat.ID
              sampleRemovalEvent.MessageID)),
        Effect.armCleanup 42 (-1001234) 7 1700000000],
        putNotif sampleNotifStore (42, -1001234, 7)
          ⟨99, 1700000000, ["👍"]⟩) :=
  (removal_edits_and_arms_timer sampleMsgStore sampleNotifStore sampleEnv
    sampleRemovalEvent ⟨42, -1001234, 7⟩ ⟨99, 0, []⟩ (by decide) (by decide)
    (by decide) (by decide) (by decide) (by decide)).1

/-- C3: on a reaction event with a non-empty new set and no live
notification (no stored state, or a stored notification message id of 0),
when the send succeeds with identifier `id`, exactly one send call is
issued (and no edit), and the stored state afterwards is
`⟨id, 0, []⟩`. -/
theorem new_notification_sent_when_no_prior (ms : MsgStore) (ns : NotifStore)
    (env : Env) (r : models.MessageReactionUpdated) (md : MessageMetadata)
    (id : Int)
    (hpriv : r.Chat.ChatType ≠ "private")
    (hms : ms (r.Chat.ID, r.MessageID) = some md)
    (hnonempty : r.NewReaction ≠ [])
    (hns : ns (md.UserID, r.Chat.ID, r.MessageID) = none ∨
      ∃ nm, ns (md.UserID, r.Chat.ID, r.MessageID) = some nm ∧
        nm.NotificationMsgID = 0)
    (hsend : env.sendResult = some id) :
    handleMessageReaction ms ns env r =
      ([Effect.sendMessage md.UserID
          (notificationTextActive (reactorNameOf r)
            (String.intercalate " " (extractEmojis r.NewReaction))
            (chatTitleOf r.Chat) (messageLinkOf r.Chat.ID r.MessageID))],
        putNotif ns (md.UserID, r.Chat.ID, r.MessageID) ⟨id, 0, []⟩) := by
  rcases hns with hnone | ⟨nm, hnm, hzero⟩
  · simp [handleMessageReaction, hpriv, hms, hnonempty, hnone, hsend]
  · simp [handleMessageReaction, hpriv, hms, hnonempty, hnm, hzero, hsend]

/-- Witness for C3: first reaction on the sample tracked message sends a
new DM whose id 100 is stored with a cleared removal state. -/
theorem new_notification_sent_when_no_prior_witness :
    handleMessageReaction sampleMsgStore emptyNotifStore sampleEnv
        sampleEvent =
      ([Effect.sendMessage 42
          (notificationTextActive (reactorNameOf sampleEvent)
            (String.intercalate " " (extractEmojis sampleEvent.NewReaction))
            (chatTitleOf sampleEvent.Chat)
            (messageLinkOf sampleEvent.Chat.ID sampleEvent.MessageID))],
        putNotif emptyNotifStore (42, -1001234, 7) ⟨100, 0, []⟩) :=
  new_notification_sent_when_no_prior sampleMsgStore emptyNotifStore
    sampleEnv sampleEvent ⟨42, -1001234, 7⟩ 100 (by decide) (by decide)
    (by decide) (Or.inl (by decide)) (by decide)

/-- C4: on a reaction event with a non-empty new set, a live notification
and a successful edit, the only call issued is that edit (no send), and
the stored state keeps the same notification message id with `RemovedAt`
reset to 0 and `RemovedEmojis` cleared. -/
theorem edit_success_no_new_message (ms : MsgStore) (ns : NotifStore)
    (env : Env) (r : models.MessageReactionUpdated) (md : MessageMetadata)
    (nm : NotificationMetadata)
    (hpriv : r.Chat.ChatType ≠ "private")
    (hms : ms (r.Chat.ID, r.MessageID) = some md)
    (hnonempty : r.NewReaction ≠ [])
    (hns : ns (md.UserID, r.Chat.ID, r.MessageID) = some nm)
    (hlive : nm.NotificationMsgID ≠ 0)
    (hedit : env.editOk nm.NotificationMsgID = true) :
    handleMessageReaction ms ns env r =
      ([Effect.editMessage md.UserID nm.NotificationMsgID
          (notificationTextActive (reactorNameOf r)
            (String.intercalate " " (extractEmojis r.NewReaction))
            (chatTitleOf r.Chat) (messageLinkOf r.Chat.ID r.MessageID))],
        putNotif ns (md.UserID, r.Chat.ID, r.MessageID)
          ⟨nm.NotificationMsgID, 0, []⟩) := by
  simp [handleMessageReaction, hpriv, hms, hnonempty, hns, hlive, hedit]

/-- Witness for C4: with live notification 99 and a succeeding edit, only
the edit is issued and id 99 is kept. -/
theorem edit_success_no_new_message_witness :
    handleMessageReaction sampleMsgStore sampleNotifStore sampleEnv
        sampleEvent =
      ([Effect.editMessage 42 99
          (notificationTextActive (reactorNameOf sampleEvent)
            (String.intercalate " " (extractEmojis sampleEvent.NewReaction))
            (chatTitleOf sampleEvent.Chat)
            (messageLinkOf sampleEvent.Chat.ID sampleEvent.MessageID))],
        putNotif sampleNotifStore (42, -1001234, 7) ⟨99, 0, []⟩) :=
  edit_success_no_new_message sampleMsgStore sampleNotifStore sampleEnv
    sampleEvent ⟨42, -1001234, 7⟩ ⟨99, 0, []⟩ (by decide) (by decide)
    (by decide) (by decide) (by decide) (by decide)

/-- C9: on a reaction event with a non-empty new set where no edit
succeeded (no live notification, or the edit failed) and the send fails,
the handler returns with the notification store exactly as it was. -/
theorem send_failure_leaves_state (ms : MsgStore) (ns : NotifStore)
    (env : Env) (r : models.MessageReactionUpdated) (md : MessageMetadata)
    (hpriv : r.Chat.ChatType ≠ "private")
    (hms : ms (r.Chat.ID, r.MessageID) = some md)
    (hnonempty : r.NewReaction ≠ [])
    (hsend : env.sendResult = none)
    (hnoedit : ns (md.UserID, r.Chat.ID, r.MessageID) = none ∨
      (∃ nm, ns (md.UserID, r.Chat.ID, r.MessageID) = some nm ∧
        nm.NotificationMsgID = 0) ∨
      (∃ nm, ns (md.UserID, r.Chat.ID, r.MessageID) = some nm ∧
        nm.NotificationMsgID ≠ 0 ∧
        env.editOk nm.NotificationMsgID = false)) :
    (handleMessageReaction ms ns env r).2 = ns := by
  rcases hnoedit with hnone | ⟨nm, hnm, hzero⟩ | ⟨nm, hnm, hlive, hfail⟩
  · simp [handleMessageReaction, hpriv, hms, hnonempty, hnone, hsend]
  · simp [handleMessageReaction, hpriv, hms, hnonempty, hnm, hzero, hsend]
  · simp [handleMessageReaction, hpriv, hms, hnonempty, hnm, hlive, hfail,
      hsend]

/-- Witness for C9: with no prior notification and a failing send, the
(empty) store is returned unchanged. -/
theorem send_failure_leaves_state_witness :
    (handleMessageReaction sampleMsgStore emptyNotifStore
        ⟨fun _ => false, none, true, 1700000000⟩ sampleEvent).2 =
      emptyNotifStore :=
  send_failure_leaves_state sampleMsgStore emptyNotifStore
    ⟨fun _ => false, none, true, 1700000000⟩ sampleEvent ⟨42, -1001234, 7⟩
    (by decide) (by decide) (by decide) (by decide) (Or.inl (by decide))

/-- C7: processing the identical reaction event twice in immediate
succession (same stores consulted, same collaborator outcomes and clock)
leaves the same final stored notification state as processing it once. -/
theorem reaction_event_idempotent (ms : MsgStore) (ns : NotifStore)
    (env : Env) (r : models.MessageReactionUpdated) :
    (handleMessageReaction ms (handleMessageReaction ms ns env r).2 env
        r).2 =
      (handleMessageReaction ms ns env r).2 := by
  by_cases hpriv : r.Chat.ChatType = "private"
  · simp [handleMessageReaction, hpriv]
  cases hms : ms (r.Chat.ID, r.MessageID) with
  | none => simp [handleMessageReaction, hpriv, hms]
  | some md =>
    by_cases hempty : r.NewReaction = []
    · cases hns : ns (md.UserID, r.Chat.ID, r.MessageID) with
      | none => simp [handleMessageReaction, hpriv, hms, hempty, hns]
      | some nm =>
        by_cases hzero : nm.NotificationMsgID = 0
        · simp [handleMessageReaction, hpriv, hms, hempty, hns, hzero]
        · simp [handleMessageReaction, hpriv, hms, hempty, hns, hzero,
            putNotif_get_self, putNotif_put_same]
    · cases hns : ns (md.UserID, r.Chat.ID, r.MessageID) with
      | none =>
        cases hsend : env.sendResult with
        | none =>
          simp [handleMessageReaction, hpriv, hms, hempty, hns, hsend]
        | some id =>
          by_cases hid : id = 0
          · subst hid
            simp [handleMessageReaction, hpriv, hms, hempty, hns, hsend,
              putNotif_get_self, putNotif_put_same]
          · by_cases hedit : env.editOk id = true
            · simp [handleMessageReaction, hpriv, hms, hempty, hns, hsend,
                hid, hedit, putNotif_get_self, putNotif_put_same]
            · simp [handleMessageReaction, hpriv, hms, hempty, hns, hsend,
                hid, hedit, putNotif_get_self, putNotif_put_same]
      | some nm =>
        by_cases hzero : nm.NotificationMsgID = 0
        · cases hsend : env.sendResult with
          | none =>
            simp [handleMessageReaction, hpriv, hms, hempty, hns, hzero,
              hsend]
          | some id =>
            by_cases hid : id = 0
            · subst hid
              simp [handleMessageReaction, hpriv, hms, hempty, hns, hzero,
                hsend, putNotif_get_self, putNotif_put_same]
            · by_cases hedit : env.editOk id = true
              · simp [handleMessageReaction, hpriv, hms, hempty, hns,
                  hzero, hsend, hid, hedit, putNotif_get_self,
                  putNotif_put_same]
              · simp [handleMessageReaction, hpriv, hms, hempty, hns,
                  hzero, hsend, hid, hedit, putNotif_get_self,
                  putNotif_put_same]
        · by_cases hedit : env.editOk nm.NotificationMsgID = true
          · simp [handleMessageReaction, hpriv, hms, hempty, hns, hzero,
              hedit, putNotif_get_self, putNotif_put_same]
          · cases hsend : env.sendResult with
            | none =>
              simp [handleMessageReaction, hpriv, hms, hempty, hns, hzero,
                hedit, hsend]
            | some id =>
              by_cases hid : id = 0
              · subst hid
                simp [handleMessageReaction, hpriv, hms, hempty, hns,
                  hzero, hedit, hsend, putNotif_get_self, putNotif_put_same]
              · by_cases hedit2 : env.editOk id = true
                · simp [handleMessageReaction, hpriv, hms, hempty, hns,
                    hzero, hedit, hsend, hid, hedit2, putNotif_get_self,
                    putNotif_put_same]
                · simp [handleMessageReaction, hpriv, hms, hempty, hns,
                    hzero, hedit, hsend, hid, hedit2, putNotif_get_self,
                    putNotif_put_same]
